import Mathlib

/-!
# PrepackNode

Shallow embedding of `backends/vulkan/runtime/graph/ops/PrepackNode.cpp`
(namespace `vkcompute`): `get_noop_shader`, the `PrepackNode` constructor,
`PrepackNode::create_staging_buffer` and `PrepackNode::encode`.

The C++ functions mutate a `ComputeGraph` and may throw.  Each of them is
embedded as a total function returning the outcome (`Except Error _`) paired
with the graph as it is left behind, so that the state reached on a throwing
path can be inspected as well.  Collaborators that live in other translation
units (value table, context, staging helpers, binding helpers, shader
registry) are modelled from the specification and marked as such.
-/

set_option linter.dupNamespace false

namespace vkcompute

/-! ## Data model -/

abbrev Byte := Fin 256

/-- Index into the value table of the owning graph. -/
abbrev ValueRef := Nat

/-- Conversion of an integer to `size_t` (64-bit unsigned). -/
def size_t (n : Nat) : Nat := n % 2 ^ 64

inductive ScalarType
  | Byte | Char | Int | Bool | Half | Float
  deriving DecidableEq, Repr

inductive MemoryAccessType
  | READ | WRITE
  deriving DecidableEq, Repr

/-- Access/layout state of a device tensor.  The comment in
`PrepackNode::encode` names `GENERAL` and `READ_ONLY_OPTIMAL`; `UNDEFINED` is
the state of an image that was never bound. -/
inductive ImageLayout
  | UNDEFINED | GENERAL | READ_ONLY_OPTIMAL
  deriving DecidableEq, Repr

inductive Error
  | InvalidReferenceError
  | ShaderResolutionError
  | AllocationError
  | DescriptorLimitError
  deriving DecidableEq, Repr

structure uvec3 where
  x : Nat
  y : Nat
  z : Nat
  deriving DecidableEq, Repr

/-- Kernel identity: the name that selects a compiled program, and the number
of descriptors its layout declares. -/
structure ShaderInfo where
  kernel_name : String
  num_descriptors : Nat
  deriving DecidableEq, Repr

/-- Device tensor: fixed shape and element type, and a current layout state. -/
structure vTensor where
  sizes : List Nat
  dtype : ScalarType
  layout : ImageLayout
  deriving DecidableEq, Repr

/-- Host source descriptor: shape, element type, and the host bytes found at
the address `data` points to. -/
structure TensorRef where
  sizes : List Nat
  dtype : ScalarType
  data : List Byte
  deriving DecidableEq, Repr

/-- Host-visible staging buffer; `data` is its mapped memory. -/
structure StorageBuffer where
  dtype : ScalarType
  numel : Nat
  data : List Byte
  deriving DecidableEq, Repr

structure UniformParamsBuffer where
  data : List Byte
  deriving DecidableEq, Repr

/-- Tagged entries of the value table. -/
inductive Value
  | None
  | Tensor (t : vTensor)
  | Staging (s : StorageBuffer)
  | TensorRef (r : TensorRef)
  | Scalar (i : Int)
  deriving DecidableEq, Repr

/-- What a descriptor slot is bound to.  A tensor is identified by the value
table entry it lives in. -/
inductive Resource
  | tensor (ref : ValueRef) (access : MemoryAccessType)
  | staging (buffer : StorageBuffer)
  | params (p : UniformParamsBuffer)
  deriving DecidableEq, Repr

structure DescriptorSet where
  shader : ShaderInfo
  local_workgroup_size : uvec3
  bindings : List (Nat × Resource)
  deriving DecidableEq, Repr

/-- One hazard recorded in a barrier: the access the tensor was opened for and
the layout transition that goes with it. -/
structure BarrierEntry where
  access : MemoryAccessType
  old_layout : ImageLayout
  new_layout : ImageLayout
  deriving DecidableEq, Repr

structure PipelineBarrier where
  entries : List BarrierEntry
  deriving DecidableEq, Repr

/-- Arguments of one `register_shader_dispatch` call. -/
structure Dispatch where
  descriptor_set : DescriptorSet
  pipeline_barrier : PipelineBarrier
  shader : ShaderInfo
  global_workgroup_size : uvec3
  deriving DecidableEq, Repr

/-- Operations on the context, in the order they are performed. -/
inductive Event
  | staging_create (nbytes : Nat)
  | staging_destroy (nbytes : Nat)
  | lock
  | unlock
  | dispatch (d : Dispatch)
  deriving DecidableEq, Repr

/-- Device/submission context.  `uninit` is what freshly allocated host memory
happens to contain; `log` is the history of operations on the context. -/
structure Context where
  uninit : Nat → Byte
  host_bytes_free : Nat
  descriptor_capacity : Nat
  descriptors_in_use : Nat
  log : List Event

structure ComputeGraph where
  values : List Value
  context : Context
  descriptor_counts : List (ShaderInfo × Bool)

/-- Collaborators of the file that are compiled elsewhere: `api::element_size`,
the texts appended by `add_ndim_suffix` and `add_dtype_suffix`, and the shader
registry consulted by `VK_KERNEL_FROM_STR`. -/
structure Api where
  element_size : ScalarType → Nat
  ndim_suffix : vTensor → String
  dtype_suffix : vTensor → String
  shader_registry : String → Option ShaderInfo

structure PrepackNode where
  shader_ : ShaderInfo
  noop_shader_ : ShaderInfo
  global_workgroup_size_ : uvec3
  local_workgroup_size_ : uvec3
  tref_ : ValueRef
  packed_ : ValueRef
  params_ : List UniformParamsBuffer
  deriving DecidableEq, Repr

/-! ## Collaborators -/

/-- Modelled from the spec: `ComputeGraph::get_val`, which resolves an opaque
value reference to a typed value and fails explicitly when the reference does
not resolve. -/
def ComputeGraph.get_val (graph : ComputeGraph) (idx : ValueRef) : Except Error Value :=
  match graph.values[idx]? with
  | some v => .ok v
  | none => .error .InvalidReferenceError

/-- Modelled from the spec: `Value::isNone`. -/
def Value.isNone : Value → Bool
  | .None => true
  | _ => false

/-- Modelled from the spec: `Value::toTensor`, which fails with
InvalidReferenceError when the value is not a tensor. -/
def Value.toTensor : Value → Except Error vTensor
  | .Tensor t => .ok t
  | _ => .error .InvalidReferenceError

/-- Modelled from the spec: `Value::toTensorRef`, which fails with
InvalidReferenceError when the value is not a host source descriptor. -/
def Value.toTensorRef : Value → Except Error vkcompute.TensorRef
  | .TensorRef r => .ok r
  | _ => .error .InvalidReferenceError

/-- Modelled from the spec: `api::utils::multiply_integers`, the number of
elements of a shape (left fold of the product, starting from one). -/
def multiply_integers (sizes : List Nat) : Nat :=
  sizes.foldl (fun acc s => acc * s) 1

/-- Overwrite the first bytes of `dst` with `src`, clipped to the extent of
`dst`. -/
def write_bytes (dst src : List Byte) : List Byte :=
  src.take dst.length ++ dst.drop src.length

/-- Modelled from the spec: the `api::StorageBuffer` constructor.  It allocates
`numel × element_size(dtype)` bytes of host-visible memory, whose content is
not initialised, and fails with AllocationError when that many bytes cannot be
allocated. -/
def StorageBuffer.create (api : Api) (context : Context) (dtype : ScalarType) (numel : Nat) :
    Except Error StorageBuffer × Context :=
  let nbytes := numel * api.element_size dtype
  if nbytes ≤ context.host_bytes_free then
    (.ok { dtype := dtype, numel := numel, data := (List.range nbytes).map context.uninit },
     { context with
        host_bytes_free := context.host_bytes_free - nbytes
        log := context.log ++ [Event.staging_create nbytes] })
  else
    (.error .AllocationError, context)

/-- Modelled from the spec: the `api::StorageBuffer` destructor, which gives
the memory back. -/
def StorageBuffer.destroy (staging : StorageBuffer) (context : Context) : Context :=
  { context with
    host_bytes_free := context.host_bytes_free + staging.data.length
    log := context.log ++ [Event.staging_destroy staging.data.length] }

/-- Modelled from the spec: `set_staging_zeros`, which fills `nbytes` bytes of
the mapped staging memory with zero. -/
def set_staging_zeros (staging : StorageBuffer) (nbytes : Nat) : StorageBuffer :=
  { staging with data := write_bytes staging.data (List.replicate nbytes 0) }

/-- Modelled from the spec: `copy_ptr_to_staging`, which copies `nbytes` raw
bytes from the host address into the mapped staging memory.  `src` is the host
memory found at the address; a read past its end is not modelled. -/
def copy_ptr_to_staging (src : List Byte) (staging : StorageBuffer) (nbytes : Nat) :
    StorageBuffer :=
  { staging with data := write_bytes staging.data (src.take nbytes) }

/-! ## PrepackNode::create_staging_buffer -/

/-- Embedding of `PrepackNode::create_staging_buffer`.  The locals `numel` and
`nbytes` are `size_t`, so the conversion of the element count and the product
with the element size are taken modulo `2 ^ 64`. -/
def create_staging_buffer (api : Api) (node : PrepackNode) (graph : ComputeGraph) :
    Except Error StorageBuffer × ComputeGraph :=
  -- vTensor& packed = graph->get_val(packed_).toTensor();
  match (graph.get_val node.packed_).bind Value.toTensor with
  | .error e => (.error e, graph)
  | .ok packed =>
    -- if (graph->get_val(tref_).isNone()) {
    match graph.get_val node.tref_ with
    | .error e => (.error e, graph)
    | .ok v =>
      if v.isNone then
        -- size_t numel = api::utils::multiply_integers(packed.sizes());
        let numel := size_t (multiply_integers packed.sizes)
        -- api::StorageBuffer staging(graph->context(), packed.dtype(), numel);
        match StorageBuffer.create api graph.context packed.dtype numel with
        | (.error e, context) => (.error e, { graph with context := context })
        | (.ok staging, context) =>
          -- size_t nbytes = numel * api::element_size(packed.dtype());
          let nbytes := size_t (numel * api.element_size packed.dtype)
          -- set_staging_zeros(staging, nbytes); return staging;
          (.ok (set_staging_zeros staging nbytes), { graph with context := context })
      else
        -- TensorRef& tref = graph->get_val(tref_).toTensorRef();
        match v.toTensorRef with
        | .error e => (.error e, graph)
        | .ok tref =>
          -- size_t numel = api::utils::multiply_integers(tref.sizes);
          let numel := size_t (multiply_integers tref.sizes)
          -- api::StorageBuffer staging(graph->context(), tref.dtype, numel);
          match StorageBuffer.create api graph.context tref.dtype numel with
          | (.error e, context) => (.error e, { graph with context := context })
          | (.ok staging, context) =>
            -- size_t nbytes = numel * api::element_size(tref.dtype);
            let nbytes := size_t (numel * api.element_size tref.dtype)
            -- copy_ptr_to_staging(tref.data, staging, nbytes); return staging;
            (.ok (copy_ptr_to_staging tref.data staging nbytes),
             { graph with context := context })

/-! ## Shader resolution and construction -/

/-- Modelled from the spec: `VK_KERNEL_FROM_STR`, the lookup of a compiled
kernel by name, which fails with ShaderResolutionError when no compiled kernel
matches the name. -/
def VK_KERNEL_FROM_STR (api : Api) (name : String) : Except Error ShaderInfo :=
  match api.shader_registry name with
  | some info => .ok info
  | none => .error .ShaderResolutionError

/-- Embedding of `get_noop_shader`. -/
def get_noop_shader (api : Api) (graph : ComputeGraph) (packed : ValueRef) :
    Except Error ShaderInfo :=
  -- std::string noop_shader_name("no_op");
  let noop_shader_name := "no_op"
  -- add_ndim_suffix(noop_shader_name, graph.get_val(packed).toTensor());
  match (graph.get_val packed).bind Value.toTensor with
  | .error e => .error e
  | .ok t1 =>
    let noop_shader_name := noop_shader_name ++ api.ndim_suffix t1
    -- add_dtype_suffix(noop_shader_name, graph.get_val(packed).toTensor());
    match (graph.get_val packed).bind Value.toTensor with
    | .error e => .error e
    | .ok t2 =>
      let noop_shader_name := noop_shader_name ++ api.dtype_suffix t2
      -- return VK_KERNEL_FROM_STR(noop_shader_name);
      VK_KERNEL_FROM_STR api noop_shader_name

/-- Modelled from the spec: `ComputeGraph::update_descriptor_counts`, which
accepts the descriptor usage of a kernel, keyed by `execute`, so that the
descriptor pool is sized for it. -/
def ComputeGraph.update_descriptor_counts (graph : ComputeGraph) (shader : ShaderInfo)
    (execute : Bool) : ComputeGraph :=
  { graph with
    descriptor_counts := graph.descriptor_counts ++ [(shader, execute)]
    context :=
      { graph.context with
        descriptor_capacity := graph.context.descriptor_capacity + shader.num_descriptors } }

/-- Embedding of the constructor `PrepackNode::PrepackNode`.  The member
initialisers run first (only `get_noop_shader` can throw), then the body. -/
def PrepackNode.PrepackNode (api : Api) (graph : ComputeGraph) (shader : ShaderInfo)
    (global_workgroup_size local_workgroup_size : uvec3) (tref packed : ValueRef)
    (params : List UniformParamsBuffer) : Except Error vkcompute.PrepackNode × ComputeGraph :=
  match get_noop_shader api graph packed with
  | .error e => (.error e, graph)
  | .ok noop_shader =>
    -- graph.update_descriptor_counts(shader, /*execute = */ false);
    let graph := graph.update_descriptor_counts shader false
    -- graph.update_descriptor_counts(noop_shader_, /*execute = */ false);
    let graph := graph.update_descriptor_counts noop_shader false
    (.ok { shader_ := shader
           noop_shader_ := noop_shader
           global_workgroup_size_ := global_workgroup_size
           local_workgroup_size_ := local_workgroup_size
           tref_ := tref
           packed_ := packed
           params_ := params },
     graph)

/-! ## Context and binding helpers -/

/-- Modelled from the spec: `Context::dispatch_lock`, which acquires exclusive
access to the shared command-submission resource. -/
def Context.dispatch_lock (context : Context) : Context :=
  { context with log := context.log ++ [Event.lock] }

/-- Destructor of the `std::unique_lock` returned by `dispatch_lock`. -/
def Context.dispatch_unlock (context : Context) : Context :=
  { context with log := context.log ++ [Event.unlock] }

/-- Modelled from the spec: `Context::get_descriptor_set`, the allocator of
descriptor binding sets, parameterised by kernel identity and local extent.  It
fails with DescriptorLimitError when the requested bindings exceed the
registered capacity. -/
def Context.get_descriptor_set (context : Context) (shader : ShaderInfo)
    (local_workgroup_size : uvec3) : Except Error DescriptorSet × Context :=
  if context.descriptors_in_use + shader.num_descriptors ≤ context.descriptor_capacity then
    (.ok { shader := shader, local_workgroup_size := local_workgroup_size, bindings := [] },
     { context with
       descriptors_in_use := context.descriptors_in_use + shader.num_descriptors })
  else
    (.error .DescriptorLimitError, context)

/-- Modelled from the spec: `Context::register_shader_dispatch`, the entry point
that records a dispatch from a binding set, a barrier, a kernel identity and
global extents. -/
def Context.register_shader_dispatch (context : Context) (descriptor_set : DescriptorSet)
    (pipeline_barrier : PipelineBarrier) (shader : ShaderInfo) (global_workgroup_size : uvec3) :
    Context :=
  { context with
    log := context.log ++
      [Event.dispatch
        { descriptor_set := descriptor_set
          pipeline_barrier := pipeline_barrier
          shader := shader
          global_workgroup_size := global_workgroup_size }] }

/-- Modelled from the spec: `DescriptorSet::bind`. -/
def DescriptorSet.bind (descriptor_set : DescriptorSet) (idx : Nat) (r : Resource) :
    DescriptorSet :=
  { descriptor_set with bindings := descriptor_set.bindings ++ [(idx, r)] }

/-- Modelled from the spec: the layout a tensor is moved to when it is opened
for an access: general-access for a write, read-optimized for a read.  The
comment in `PrepackNode::encode` describes the same transition, from `GENERAL`
to `READ_ONLY_OPTIMAL`, as the effect of the read binding. -/
def vk_layout : MemoryAccessType → ImageLayout
  | .WRITE => .GENERAL
  | .READ => .READ_ONLY_OPTIMAL

/-- Modelled from the spec: `bind_tensor_to_descriptor_set`.  Opening the
tensor for `access` records the hazard in the barrier, advances the layout
state of the tensor, and binds the tensor to slot `idx`.  `ref` is the value
table entry the `vTensor&` argument refers to. -/
def bind_tensor_to_descriptor_set (ref : ValueRef) (tensor : vTensor)
    (pipeline_barrier : PipelineBarrier) (access : MemoryAccessType)
    (descriptor_set : DescriptorSet) (idx : Nat) : vTensor × PipelineBarrier × DescriptorSet :=
  ({ tensor with layout := vk_layout access },
   { entries := pipeline_barrier.entries ++
       [{ access := access, old_layout := tensor.layout, new_layout := vk_layout access }] },
   descriptor_set.bind idx (.tensor ref access))

/-- Modelled from the spec: `bind_staging_to_descriptor_set`. -/
def bind_staging_to_descriptor_set (staging : StorageBuffer) (descriptor_set : DescriptorSet)
    (idx : Nat) : DescriptorSet :=
  descriptor_set.bind idx (.staging staging)

/-- Modelled from the spec: `bind_params_to_descriptor_set`, which binds the
parameter buffers in their given sequence to consecutive slots from
`base_idx` on. -/
def bind_params_to_descriptor_set :
    List UniformParamsBuffer → DescriptorSet → Nat → DescriptorSet
  | [], descriptor_set, _ => descriptor_set
  | p :: rest, descriptor_set, base_idx =>
    bind_params_to_descriptor_set rest (descriptor_set.bind base_idx (.params p)) (base_idx + 1)

/-- Write-back through the reference `vTensor& packed` into the value table. -/
def ComputeGraph.store_tensor (graph : ComputeGraph) (ref : ValueRef) (tensor : vTensor) :
    ComputeGraph :=
  { graph with values := graph.values.set ref (.Tensor tensor) }

/-! ## PrepackNode::encode -/

/-- The two dispatch blocks of `PrepackNode::encode` (the part that runs while
`cmd_lock` is alive). -/
def encode_dispatches (node : PrepackNode) (packed : vTensor) (staging : StorageBuffer)
    (graph : ComputeGraph) : Except Error Unit × ComputeGraph :=
  -- api::PipelineBarrier pipeline_barrier{};
  let pipeline_barrier : PipelineBarrier := { entries := [] }
  -- context->get_descriptor_set(shader_, local_workgroup_size_)
  match graph.context.get_descriptor_set node.shader_ node.local_workgroup_size_ with
  | (.error e, context) => (.error e, { graph with context := context })
  | (.ok descriptor_set, context) =>
    let graph := { graph with context := context }
    -- uint32_t idx = 0;
    let idx := 0
    -- bind_tensor_to_descriptor_set(packed, pipeline_barrier, WRITE, descriptor_set, idx++);
    match bind_tensor_to_descriptor_set node.packed_ packed pipeline_barrier .WRITE
        descriptor_set idx with
    | (packed, pipeline_barrier, descriptor_set) =>
      let graph := graph.store_tensor node.packed_ packed
      let idx := idx + 1
      -- bind_staging_to_descriptor_set(staging, descriptor_set, idx++);
      let descriptor_set := bind_staging_to_descriptor_set staging descriptor_set idx
      let idx := idx + 1
      -- bind_params_to_descriptor_set(params_, descriptor_set, idx);
      let descriptor_set := bind_params_to_descriptor_set node.params_ descriptor_set idx
      -- context->register_shader_dispatch(
      --     descriptor_set, pipeline_barrier, shader_, global_workgroup_size_);
      let graph :=
        { graph with
          context := graph.context.register_shader_dispatch descriptor_set pipeline_barrier
            node.shader_ node.global_workgroup_size_ }
      -- second block: api::PipelineBarrier pipeline_barrier{};
      let pipeline_barrier : PipelineBarrier := { entries := [] }
      -- context->get_descriptor_set(noop_shader_, {1, 1, 1})
      match graph.context.get_descriptor_set node.noop_shader_ ⟨1, 1, 1⟩ with
      | (.error e, context) => (.error e, { graph with context := context })
      | (.ok descriptor_set, context) =>
        let graph := { graph with context := context }
        -- bind_tensor_to_descriptor_set(packed, pipeline_barrier, READ, descriptor_set, 0);
        match bind_tensor_to_descriptor_set node.packed_ packed pipeline_barrier .READ
            descriptor_set 0 with
        | (packed, pipeline_barrier, descriptor_set) =>
          let graph := graph.store_tensor node.packed_ packed
          -- context->register_shader_dispatch(
          --     descriptor_set, pipeline_barrier, noop_shader_, {1, 1, 1});
          (.ok (),
           { graph with
             context := graph.context.register_shader_dispatch descriptor_set pipeline_barrier
               node.noop_shader_ ⟨1, 1, 1⟩ })

/-- Embedding of `PrepackNode::encode`.  On every path that leaves the scope of
`staging` and `cmd_lock`, normally or by an exception, the locals are destroyed
in reverse order of declaration: first the lock is released, then the staging
buffer. -/
def encode (api : Api) (node : PrepackNode) (graph : ComputeGraph) :
    Except Error Unit × ComputeGraph :=
  -- api::Context* const context = graph->context();
  -- vTensor& packed = graph->get_val(packed_).toTensor();
  match (graph.get_val node.packed_).bind Value.toTensor with
  | .error e => (.error e, graph)
  | .ok packed =>
    -- api::StorageBuffer staging = create_staging_buffer(graph);
    match create_staging_buffer api node graph with
    | (.error e, graph) => (.error e, graph)
    | (.ok staging, graph) =>
      -- std::unique_lock<std::mutex> cmd_lock = context->dispatch_lock();
      let graph := { graph with context := graph.context.dispatch_lock }
      match encode_dispatches node packed staging graph with
      | (result, graph) =>
        -- ~unique_lock
        let graph := { graph with context := graph.context.dispatch_unlock }
        -- ~StorageBuffer
        let graph := { graph with context := staging.destroy graph.context }
        (result, graph)

/-- The dispatches recorded in a log, in order. -/
def recorded_dispatches : List Event → List Dispatch
  | [] => []
  | .dispatch d :: rest => d :: recorded_dispatches rest
  | _ :: rest => recorded_dispatches rest

/-! ## Shared command-submission resource -/

/-- Modelled from the spec: discipline of the single shared command-submission
resource.  A schedule lists, in global order, which node performed which
operation on the context.  Replaying it from a lock holder yields the holder at
the end, or `none` when the schedule cannot happen: the lock is acquired while
it is held, it is released by a node that does not hold it, or a dispatch is
recorded by a node that does not hold it. -/
def replay : Option Nat → List (Nat × Event) → Option (Option Nat)
  | holder, [] => some holder
  | holder, (n, .lock) :: rest => if holder = none then replay (some n) rest else none
  | holder, (n, .unlock) :: rest => if holder = some n then replay none rest else none
  | holder, (n, .dispatch _) :: rest => if holder = some n then replay holder rest else none
  | holder, (_, .staging_create _) :: rest => replay holder rest
  | holder, (_, .staging_destroy _) :: rest => replay holder rest

/-! ## Closed forms used in the statements -/

/-- Closed form of the slots filled by `bind_params_to_descriptor_set`. -/
def param_bindings : List UniformParamsBuffer → Nat → List (Nat × Resource)
  | [], _ => []
  | p :: rest, base_idx => (base_idx, .params p) :: param_bindings rest (base_idx + 1)

/-- Closed form of the dispatch recorded by the first block of `encode`. -/
def main_dispatch (node : PrepackNode) (packed : vTensor) (staging : StorageBuffer) : Dispatch :=
  { descriptor_set :=
      { shader := node.shader_
        local_workgroup_size := node.local_workgroup_size_
        bindings := (0, .tensor node.packed_ .WRITE) :: (1, .staging staging) ::
          param_bindings node.params_ 2 }
    pipeline_barrier :=
      { entries := [{ access := .WRITE, old_layout := packed.layout, new_layout := .GENERAL }] }
    shader := node.shader_
    global_workgroup_size := node.global_workgroup_size_ }

/-- Closed form of the dispatch recorded by the second block of `encode`. -/
def noop_dispatch (node : PrepackNode) : Dispatch :=
  { descriptor_set :=
      { shader := node.noop_shader_
        local_workgroup_size := ⟨1, 1, 1⟩
        bindings := [(0, .tensor node.packed_ .READ)] }
    pipeline_barrier :=
      { entries := [{ access := .READ, old_layout := .GENERAL,
                      new_layout := .READ_ONLY_OPTIMAL }] }
    shader := node.noop_shader_
    global_workgroup_size := ⟨1, 1, 1⟩ }

/-! ## Example inputs -/

/-- Element sizes used by the examples: four bytes for `Float` and `Int`, two
for `Half`, one for the rest. -/
def example_api : Api where
  element_size := fun d =>
    match d with
    | .Float => 4
    | .Int => 4
    | .Half => 2
    | _ => 1
  ndim_suffix := fun _ => "_3d"
  dtype_suffix := fun t =>
    match t.dtype with
    | .Float => "_float"
    | .Half => "_half"
    | _ => "_int"
  shader_registry := fun name =>
    if name = "no_op_3d_float" then some { kernel_name := "no_op_3d_float", num_descriptors := 1 }
    else none

def example_context : Context where
  uninit := fun i => Fin.ofNat (i + 171)
  host_bytes_free := 4096
  descriptor_capacity := 0
  descriptors_in_use := 0
  log := []

def example_main_shader : ShaderInfo :=
  { kernel_name := "nchw_to_image_3d_float", num_descriptors := 3 }

def example_noop_shader : ShaderInfo :=
  { kernel_name := "no_op_3d_float", num_descriptors := 1 }

/-- Scenario A: destination of shape `[4,4]`, 4-byte float, no source. -/
def scenario_a_graph : ComputeGraph where
  values := [.None, .Tensor { sizes := [4, 4], dtype := .Float, layout := .UNDEFINED }]
  context := example_context
  descriptor_counts := []

def scenario_a_node : PrepackNode where
  shader_ := example_main_shader
  noop_shader_ := example_noop_shader
  global_workgroup_size_ := ⟨4, 4, 1⟩
  local_workgroup_size_ := ⟨4, 4, 1⟩
  tref_ := 0
  packed_ := 1
  params_ := []

/-- Scenario B: source of shape `[2,3]`, 4-byte float, with a known byte
pattern; the destination is deliberately of another shape and type. -/
def scenario_b_bytes : List Byte :=
  [1, 2, 3, 4, 5, 6, 7, 8, 9, 10, 11, 12, 13, 14, 15, 16, 17, 18, 19, 20, 21, 22, 23, 24]

def scenario_b_graph : ComputeGraph where
  values :=
    [.TensorRef { sizes := [2, 3], dtype := .Float, data := scenario_b_bytes },
     .Tensor { sizes := [5], dtype := .Half, layout := .GENERAL }]
  context := example_context
  descriptor_counts := []

/-- Scenario A after the node was constructed on the graph, so that both of
its kernels are registered. -/
def scenario_a_registered : ComputeGraph :=
  (PrepackNode.PrepackNode example_api scenario_a_graph example_main_shader
    ⟨4, 4, 1⟩ ⟨4, 4, 1⟩ 0 1 []).2

def example_params : List UniformParamsBuffer :=
  [{ data := [1, 2, 3, 4] }, { data := [5, 6] }]

/-- The node of scenario A with two parameter buffers. -/
def scenario_params_node : PrepackNode :=
  { scenario_a_node with params_ := example_params }

/-- Scenario A with the destination tensor starting in the general-access
state. -/
def scenario_general_registered : ComputeGraph :=
  { scenario_a_registered with
    values := [.None, .Tensor { sizes := [4, 4], dtype := .Float, layout := .GENERAL }] }

/-- The node of scenario A with its destination reference pointing at the
entry that holds no tensor. -/
def scenario_bad_node : PrepackNode :=
  { scenario_a_node with packed_ := 0 }

/-- Scenario C: no compiled kernel exists. -/
def example_api_without_kernels : Api :=
  { example_api with shader_registry := fun _ => none }

/-! ## Lemmas on the collaborators -/

theorem foldl_mul_eq (sizes : List Nat) (a : Nat) :
    sizes.foldl (fun acc s => acc * s) a = a * sizes.prod := by
  induction sizes generalizing a with
  | nil => simp
  | cons s rest ih => simp [List.foldl_cons, ih, Nat.mul_assoc]

theorem multiply_integers_eq_prod (sizes : List Nat) : multiply_integers sizes = sizes.prod := by
  simp [multiply_integers, foldl_mul_eq]

theorem write_bytes_full (dst src : List Byte) (h : src.length = dst.length) :
    write_bytes dst src = src := by
  have h1 : src.take dst.length = src := by rw [← h]; simp
  have h2 : dst.drop src.length = [] := by rw [h]; simp
  unfold write_bytes
  rw [h1, h2, List.append_nil]

theorem size_t_of_lt (n : Nat) (h : n < 2 ^ 64) : size_t n = n := by
  unfold size_t
  exact Nat.mod_eq_of_lt h

theorem numel_fits (sizes : List Nat) (esize : Nat) (h : sizes.prod * esize < 2 ^ 64) :
    size_t (multiply_integers sizes) * esize = sizes.prod * esize ∧
      size_t (size_t (multiply_integers sizes) * esize) = sizes.prod * esize := by
  rw [multiply_integers_eq_prod]
  rcases Nat.eq_zero_or_pos esize with h0 | hpos
  · subst h0
    simp [size_t]
  · have hp : sizes.prod < 2 ^ 64 :=
      lt_of_le_of_lt (Nat.le_mul_of_pos_right _ hpos) h
    rw [size_t_of_lt _ hp, size_t_of_lt _ h]
    exact ⟨rfl, rfl⟩

theorem bind_params_eq (params : List UniformParamsBuffer) (ds : DescriptorSet) (base_idx : Nat) :
    bind_params_to_descriptor_set params ds base_idx =
      { ds with bindings := ds.bindings ++ param_bindings params base_idx } := by
  induction params generalizing ds base_idx with
  | nil => simp [bind_params_to_descriptor_set, param_bindings]
  | cons p rest ih =>
    simp [bind_params_to_descriptor_set, param_bindings, ih, DescriptorSet.bind]

theorem param_bindings_length (params : List UniformParamsBuffer) (base_idx : Nat) :
    (param_bindings params base_idx).length = params.length := by
  induction params generalizing base_idx with
  | nil => rfl
  | cons p rest ih => simp [param_bindings, ih]

theorem param_bindings_get (params : List UniformParamsBuffer) (base_idx i : Nat)
    (hi : i < params.length) :
    (param_bindings params base_idx)[i]? = some (base_idx + i, .params params[i]) := by
  induction params generalizing base_idx i with
  | nil => simp at hi
  | cons p rest ih =>
    cases i with
    | zero => simp [param_bindings]
    | succ j =>
      have hj : j < rest.length := by simpa using hi
      simp [param_bindings, ih (base_idx + 1) j hj]
      omega


theorem write_bytes_length (dst src : List Byte) : (write_bytes dst src).length = dst.length := by
  simp [write_bytes]
  omega

theorem toTensor_ok_iff (graph : ComputeGraph) (ref : ValueRef) (t : vTensor) :
    (graph.get_val ref).bind Value.toTensor = .ok t ↔ graph.get_val ref = .ok (.Tensor t) := by
  cases hv : graph.get_val ref with
  | error e => simp [Except.bind]
  | ok v => cases v <;> simp [Except.bind, Value.toTensor]

theorem StorageBuffer.create_ok (api : Api) (context c : Context) (dtype : ScalarType)
    (numel : Nat) (s : StorageBuffer)
    (h : StorageBuffer.create api context dtype numel = (.ok s, c)) :
    s.data.length = numel * api.element_size dtype ∧ s.dtype = dtype ∧
      c.log = context.log ++ [Event.staging_create (numel * api.element_size dtype)] ∧
      c.descriptor_capacity = context.descriptor_capacity ∧
      c.descriptors_in_use = context.descriptors_in_use ∧
      numel * api.element_size dtype ≤ context.host_bytes_free := by
  unfold StorageBuffer.create at h
  dsimp only at h
  split_ifs at h with hmem
  · simp only [Prod.mk.injEq, Except.ok.injEq] at h
    obtain ⟨rfl, rfl⟩ := h
    simp [hmem]
  · simp at h

theorem create_staging_buffer_ok (api : Api) (node : PrepackNode) (graph g1 : ComputeGraph)
    (staging : StorageBuffer) (h : create_staging_buffer api node graph = (.ok staging, g1)) :
    g1.values = graph.values ∧ g1.descriptor_counts = graph.descriptor_counts ∧
      g1.context.log = graph.context.log ++ [Event.staging_create staging.data.length] ∧
      g1.context.descriptor_capacity = graph.context.descriptor_capacity ∧
      g1.context.descriptors_in_use = graph.context.descriptors_in_use := by
  unfold create_staging_buffer at h
  split at h
  · simp at h
  · split at h
    · simp at h
    · split at h
      · dsimp only at h
        split at h
        · simp at h
        · rename_i hc
          obtain ⟨h1, _, h3, h4, h5, _⟩ := StorageBuffer.create_ok _ _ _ _ _ _ hc
          simp only [Prod.mk.injEq, Except.ok.injEq] at h
          obtain ⟨rfl, rfl⟩ := h
          simp [set_staging_zeros, write_bytes_length, h1, h3, h4, h5]
      · split at h
        · simp at h
        · dsimp only at h
          split at h
          · simp at h
          · rename_i hc
            obtain ⟨h1, _, h3, h4, h5, _⟩ := StorageBuffer.create_ok _ _ _ _ _ _ hc
            simp only [Prod.mk.injEq, Except.ok.injEq] at h
            obtain ⟨rfl, rfl⟩ := h
            simp [copy_ptr_to_staging, write_bytes_length, h1, h3, h4, h5]

theorem get_val_error (graph : ComputeGraph) (ref : ValueRef) (e : Error)
    (h : graph.get_val ref = .error e) : e = Error.InvalidReferenceError := by
  unfold ComputeGraph.get_val at h
  split at h
  · simp at h
  · simp only [Except.error.injEq] at h
    exact h.symm

theorem toTensor_error (graph : ComputeGraph) (ref : ValueRef) (e : Error)
    (h : (graph.get_val ref).bind Value.toTensor = .error e) :
    e = Error.InvalidReferenceError := by
  cases hv : graph.get_val ref with
  | error e1 =>
    have := get_val_error graph ref e1 hv
    simp only [hv, Except.bind, Except.error.injEq] at h
    exact h ▸ this
  | ok v =>
    cases v <;> simp [hv, Except.bind, Value.toTensor] at h <;> exact h.symm

theorem toTensorRef_error (v : Value) (e : Error) (h : v.toTensorRef = .error e) :
    e = Error.InvalidReferenceError := by
  cases v <;> simp [Value.toTensorRef] at h <;> exact h.symm

theorem StorageBuffer.create_error (api : Api) (context c : Context) (dtype : ScalarType)
    (numel : Nat) (e : Error)
    (h : StorageBuffer.create api context dtype numel = (.error e, c)) :
    c = context ∧ e = Error.AllocationError := by
  unfold StorageBuffer.create at h
  dsimp only at h
  split_ifs at h with hmem
  · simp at h
  · simp only [Prod.mk.injEq, Except.error.injEq] at h
    exact ⟨h.2.symm, h.1.symm⟩

theorem create_staging_buffer_error (api : Api) (node : PrepackNode) (graph g1 : ComputeGraph)
    (e : Error) (h : create_staging_buffer api node graph = (.error e, g1)) :
    g1 = graph ∧ (e = Error.InvalidReferenceError ∨ e = Error.AllocationError) := by
  unfold create_staging_buffer at h
  split at h
  · rename_i hp
    simp only [Prod.mk.injEq, Except.error.injEq] at h
    obtain ⟨rfl, rfl⟩ := h
    exact ⟨rfl, Or.inl (toTensor_error _ _ _ hp)⟩
  · split at h
    · rename_i hv
      simp only [Prod.mk.injEq, Except.error.injEq] at h
      obtain ⟨rfl, rfl⟩ := h
      exact ⟨rfl, Or.inl (get_val_error _ _ _ hv)⟩
    · split at h
      · dsimp only at h
        split at h
        · rename_i hc
          obtain ⟨rfl, rfl⟩ := StorageBuffer.create_error _ _ _ _ _ _ hc
          simp only [Prod.mk.injEq, Except.error.injEq] at h
          obtain ⟨rfl, rfl⟩ := h
          exact ⟨rfl, Or.inr rfl⟩
        · simp at h
      · split at h
        · rename_i hr
          simp only [Prod.mk.injEq, Except.error.injEq] at h
          obtain ⟨rfl, rfl⟩ := h
          exact ⟨rfl, Or.inl (toTensorRef_error _ _ hr)⟩
        · dsimp only at h
          split at h
          · rename_i hc
            obtain ⟨rfl, rfl⟩ := StorageBuffer.create_error _ _ _ _ _ _ hc
            simp only [Prod.mk.injEq, Except.error.injEq] at h
            obtain ⟨rfl, rfl⟩ := h
            exact ⟨rfl, Or.inr rfl⟩
          · simp at h


theorem encode_dispatches_ok (node : PrepackNode) (packed : vTensor) (staging : StorageBuffer)
    (graph : ComputeGraph)
    (h : graph.context.descriptors_in_use + node.shader_.num_descriptors
        + node.noop_shader_.num_descriptors ≤ graph.context.descriptor_capacity) :
    encode_dispatches node packed staging graph =
      (.ok (),
       { values := (graph.values.set node.packed_ (.Tensor { packed with layout := .GENERAL })).set
           node.packed_ (.Tensor { packed with layout := .READ_ONLY_OPTIMAL })
         descriptor_counts := graph.descriptor_counts
         context :=
           { graph.context with
             descriptors_in_use := graph.context.descriptors_in_use
               + node.shader_.num_descriptors + node.noop_shader_.num_descriptors
             log := graph.context.log ++
               [Event.dispatch (main_dispatch node packed staging),
                Event.dispatch (noop_dispatch node)] } }) := by
  have h1 : graph.context.descriptors_in_use + node.shader_.num_descriptors
      ≤ graph.context.descriptor_capacity := by omega
  simp [encode_dispatches, Context.get_descriptor_set, h1, h, bind_tensor_to_descriptor_set,
    bind_staging_to_descriptor_set, bind_params_eq, ComputeGraph.store_tensor,
    Context.register_shader_dispatch, DescriptorSet.bind, vk_layout, main_dispatch,
    noop_dispatch]

theorem encode_dispatches_fail_second (node : PrepackNode) (packed : vTensor)
    (staging : StorageBuffer) (graph : ComputeGraph)
    (h1 : graph.context.descriptors_in_use + node.shader_.num_descriptors
        ≤ graph.context.descriptor_capacity)
    (h2 : ¬ graph.context.descriptors_in_use + node.shader_.num_descriptors
        + node.noop_shader_.num_descriptors ≤ graph.context.descriptor_capacity) :
    encode_dispatches node packed staging graph =
      (.error .DescriptorLimitError,
       { values := graph.values.set node.packed_ (.Tensor { packed with layout := .GENERAL })
         descriptor_counts := graph.descriptor_counts
         context :=
           { graph.context with
             descriptors_in_use := graph.context.descriptors_in_use
               + node.shader_.num_descriptors
             log := graph.context.log ++
               [Event.dispatch (main_dispatch node packed staging)] } }) := by
  simp [encode_dispatches, Context.get_descriptor_set, h1, h2, bind_tensor_to_descriptor_set,
    bind_staging_to_descriptor_set, bind_params_eq, ComputeGraph.store_tensor,
    Context.register_shader_dispatch, DescriptorSet.bind, vk_layout, main_dispatch]

theorem encode_dispatches_fail_first (node : PrepackNode) (packed : vTensor)
    (staging : StorageBuffer) (graph : ComputeGraph)
    (h1 : ¬ graph.context.descriptors_in_use + node.shader_.num_descriptors
        ≤ graph.context.descriptor_capacity) :
    encode_dispatches node packed staging graph = (.error .DescriptorLimitError, graph) := by
  simp [encode_dispatches, Context.get_descriptor_set, h1]

theorem encode_unfold (api : Api) (node : PrepackNode) (graph g1 : ComputeGraph)
    (packed : vTensor) (staging : StorageBuffer)
    (hp : graph.get_val node.packed_ = .ok (.Tensor packed))
    (hs : create_staging_buffer api node graph = (.ok staging, g1)) :
    encode api node graph =
      ((encode_dispatches node packed staging
          { g1 with context := g1.context.dispatch_lock }).1,
       { (encode_dispatches node packed staging
            { g1 with context := g1.context.dispatch_lock }).2 with
         context := staging.destroy
           (encode_dispatches node packed staging
             { g1 with context := g1.context.dispatch_lock }).2.context.dispatch_unlock }) := by
  have hp2 := (toTensor_ok_iff graph node.packed_ packed).2 hp
  unfold encode
  simp only [hp2, hs]

theorem encode_ok_inv (api : Api) (node : PrepackNode) (graph : ComputeGraph)
    (h : (encode api node graph).1 = .ok ()) :
    ∃ packed staging g1,
      graph.get_val node.packed_ = .ok (.Tensor packed) ∧
      create_staging_buffer api node graph = (.ok staging, g1) ∧
      graph.context.descriptors_in_use + node.shader_.num_descriptors
        + node.noop_shader_.num_descriptors ≤ graph.context.descriptor_capacity ∧
      (encode api node graph).2.values =
        (graph.values.set node.packed_ (.Tensor { packed with layout := .GENERAL })).set
           node.packed_ (.Tensor { packed with layout := .READ_ONLY_OPTIMAL }) ∧
      (encode api node graph).2.descriptor_counts = graph.descriptor_counts ∧
      (encode api node graph).2.context.log = graph.context.log ++
        [Event.staging_create staging.data.length,
         Event.lock,
         Event.dispatch (main_dispatch node packed staging),
         Event.dispatch (noop_dispatch node),
         Event.unlock,
         Event.staging_destroy staging.data.length] := by
  cases hp : (graph.get_val node.packed_).bind Value.toTensor with
  | error e =>
    unfold encode at h
    simp [hp] at h
  | ok packed =>
    have hp1 := (toTensor_ok_iff graph node.packed_ packed).1 hp
    cases hs : create_staging_buffer api node graph with
    | mk r g1 =>
      cases r with
      | error e =>
        unfold encode at h
        simp [hp, hs] at h
      | ok staging =>
        obtain ⟨hv, hd, hl, hcap, huse⟩ := create_staging_buffer_ok _ _ _ _ _ hs
        have hu := encode_unfold api node graph g1 packed staging hp1 hs
        by_cases h1 : graph.context.descriptors_in_use + node.shader_.num_descriptors
            ≤ graph.context.descriptor_capacity
        · by_cases h2 : graph.context.descriptors_in_use + node.shader_.num_descriptors
            + node.noop_shader_.num_descriptors ≤ graph.context.descriptor_capacity
          · refine ⟨packed, staging, g1, hp1, rfl, h2, ?_⟩
            rw [hu, encode_dispatches_ok node packed staging _
              (by simpa [Context.dispatch_lock, hcap, huse] using h2)]
            simp [Context.dispatch_lock, Context.dispatch_unlock, StorageBuffer.destroy, hv, hd, hl]
          · rw [hu, encode_dispatches_fail_second node packed staging _
              (by simpa [Context.dispatch_lock, hcap, huse] using h1)
              (by simpa [Context.dispatch_lock, hcap, huse] using h2)] at h
            simp at h
        · rw [hu, encode_dispatches_fail_first node packed staging _
              (by simpa [Context.dispatch_lock, hcap, huse] using h1)] at h
          simp at h

theorem encode_cases (api : Api) (node : PrepackNode) (graph : ComputeGraph) :
    encode api node graph = (.error .InvalidReferenceError, graph) ∨
    encode api node graph = (.error .AllocationError, graph) ∨
    ∃ packed staging g1,
      graph.get_val node.packed_ = .ok (.Tensor packed) ∧
      create_staging_buffer api node graph = (.ok staging, g1) ∧
      (encode api node graph).2.descriptor_counts = graph.descriptor_counts ∧
      ((¬ graph.context.descriptors_in_use + node.shader_.num_descriptors
            ≤ graph.context.descriptor_capacity ∧
          (encode api node graph).1 = .error .DescriptorLimitError ∧
          (encode api node graph).2.values = graph.values ∧
          (encode api node graph).2.context.log = graph.context.log ++
            [Event.staging_create staging.data.length, Event.lock, Event.unlock,
             Event.staging_destroy staging.data.length]) ∨
       (graph.context.descriptors_in_use + node.shader_.num_descriptors
            ≤ graph.context.descriptor_capacity ∧
          ¬ graph.context.descriptors_in_use + node.shader_.num_descriptors
            + node.noop_shader_.num_descriptors ≤ graph.context.descriptor_capacity ∧
          (encode api node graph).1 = .error .DescriptorLimitError ∧
          (encode api node graph).2.values =
            graph.values.set node.packed_ (.Tensor { packed with layout := .GENERAL }) ∧
          (encode api node graph).2.context.log = graph.context.log ++
            [Event.staging_create staging.data.length, Event.lock,
             Event.dispatch (main_dispatch node packed staging), Event.unlock,
             Event.staging_destroy staging.data.length]) ∨
       (graph.context.descriptors_in_use + node.shader_.num_descriptors
            + node.noop_shader_.num_descriptors ≤ graph.context.descriptor_capacity ∧
          (encode api node graph).1 = .ok () ∧
          (encode api node graph).2.values =
            (graph.values.set node.packed_ (.Tensor { packed with layout := .GENERAL })).set
              node.packed_ (.Tensor { packed with layout := .READ_ONLY_OPTIMAL }) ∧
          (encode api node graph).2.context.log = graph.context.log ++
            [Event.staging_create staging.data.length, Event.lock,
             Event.dispatch (main_dispatch node packed staging),
             Event.dispatch (noop_dispatch node), Event.unlock,
             Event.staging_destroy staging.data.length])) := by
  cases hp : (graph.get_val node.packed_).bind Value.toTensor with
  | error e =>
    left
    have he := toTensor_error _ _ _ hp
    subst he
    unfold encode
    simp [hp]
  | ok packed =>
    have hp1 := (toTensor_ok_iff graph node.packed_ packed).1 hp
    cases hs : create_staging_buffer api node graph with
    | mk r g1 =>
      cases r with
      | error e =>
        obtain ⟨rfl, he⟩ := create_staging_buffer_error _ _ _ _ _ hs
        rcases he with rfl | rfl
        · left
          unfold encode
          simp [hp, hs]
        · right; left
          unfold encode
          simp [hp, hs]
      | ok staging =>
        right; right
        obtain ⟨hv, hd, hl, hcap, huse⟩ := create_staging_buffer_ok _ _ _ _ _ hs
        have hu := encode_unfold api node graph g1 packed staging hp1 hs
        refine ⟨packed, staging, g1, hp1, rfl, ?_⟩
        by_cases h1 : graph.context.descriptors_in_use + node.shader_.num_descriptors
            ≤ graph.context.descriptor_capacity
        · by_cases h2 : graph.context.descriptors_in_use + node.shader_.num_descriptors
            + node.noop_shader_.num_descriptors ≤ graph.context.descriptor_capacity
          · rw [hu, encode_dispatches_ok node packed staging _
              (by simpa [Context.dispatch_lock, hcap, huse] using h2)]
            refine ⟨by simp [hd], Or.inr (Or.inr ⟨h2, rfl, ?_⟩)⟩
            simp [Context.dispatch_lock, Context.dispatch_unlock, StorageBuffer.destroy, hv, hl]
          · rw [hu, encode_dispatches_fail_second node packed staging _
              (by simpa [Context.dispatch_lock, hcap, huse] using h1)
              (by simpa [Context.dispatch_lock, hcap, huse] using h2)]
            refine ⟨by simp [hd], Or.inr (Or.inl ⟨h1, h2, rfl, ?_⟩)⟩
            simp [Context.dispatch_lock, Context.dispatch_unlock, StorageBuffer.destroy, hv, hl]
        · rw [hu, encode_dispatches_fail_first node packed staging _
              (by simpa [Context.dispatch_lock, hcap, huse] using h1)]
          refine ⟨by simp [hd], Or.inl ⟨h1, rfl, ?_⟩⟩
          simp [Context.dispatch_lock, Context.dispatch_unlock, StorageBuffer.destroy, hv, hl]

theorem recorded_dispatches_append (l1 l2 : List Event) :
    recorded_dispatches (l1 ++ l2) = recorded_dispatches l1 ++ recorded_dispatches l2 := by
  induction l1 with
  | nil => rfl
  | cons e rest ih => cases e <;> simp [recorded_dispatches, ih]

theorem get_val_lt (graph : ComputeGraph) (ref : ValueRef) (v : Value)
    (h : graph.get_val ref = .ok v) : ref < graph.values.length := by
  by_contra hlt
  have hn : graph.values[ref]? = none := List.getElem?_eq_none (Nat.le_of_not_lt hlt)
  simp [ComputeGraph.get_val, hn] at h

theorem get_val_set_set (graph g2 : ComputeGraph) (ref : ValueRef) (v a b : Value)
    (h : graph.get_val ref = .ok v)
    (h2 : g2.values = (graph.values.set ref a).set ref b) :
    g2.get_val ref = .ok b := by
  have hlt := get_val_lt graph ref v h
  simp [ComputeGraph.get_val, h2, hlt]

theorem encode_error_kinds (api : Api) (node : PrepackNode) (graph : ComputeGraph) :
    (encode api node graph).1 ≠ .error .ShaderResolutionError := by
  rcases encode_cases api node graph with h | h | ⟨_, _, _, _, _, _, h | h | h⟩
  · simp [h]
  · simp [h]
  · simp [h.2.1]
  · simp [h.2.2.1]
  · simp [h.2.1]

theorem encode_descriptor_counts (api : Api) (node : PrepackNode) (graph : ComputeGraph) :
    (encode api node graph).2.descriptor_counts = graph.descriptor_counts := by
  rcases encode_cases api node graph with h | h | ⟨_, _, _, _, _, h, _⟩
  · simp [h]
  · simp [h]
  · exact h

theorem create_staging_buffer_ok_tensor (api : Api) (node : PrepackNode) (graph g1 : ComputeGraph)
    (staging : StorageBuffer) (h : create_staging_buffer api node graph = (.ok staging, g1)) :
    ∃ packed, graph.get_val node.packed_ = .ok (.Tensor packed) := by
  cases hp : (graph.get_val node.packed_).bind Value.toTensor with
  | error e =>
    unfold create_staging_buffer at h
    simp [hp] at h
  | ok packed => exact ⟨packed, (toTensor_ok_iff _ _ _).1 hp⟩

theorem encode_ok_iff (api : Api) (node : PrepackNode) (graph : ComputeGraph) :
    (encode api node graph).1 = .ok () ↔
      (∃ staging, (create_staging_buffer api node graph).1 = .ok staging) ∧
        graph.context.descriptors_in_use + node.shader_.num_descriptors
          + node.noop_shader_.num_descriptors ≤ graph.context.descriptor_capacity := by
  constructor
  · intro h
    obtain ⟨_, staging, g1, _, hs, hc, _⟩ := encode_ok_inv api node graph h
    exact ⟨⟨staging, by rw [hs]⟩, hc⟩
  · rintro ⟨⟨staging, hs⟩, hc⟩
    cases hs2 : create_staging_buffer api node graph with
    | mk r g1 =>
      rw [hs2] at hs
      simp only at hs
      subst hs
      obtain ⟨packed, hp⟩ := create_staging_buffer_ok_tensor _ _ _ _ _ hs2
      obtain ⟨_, _, _, hcap, huse⟩ := create_staging_buffer_ok _ _ _ _ _ hs2
      rw [encode_unfold api node graph g1 packed staging hp hs2,
        encode_dispatches_ok node packed staging _
          (by simpa [Context.dispatch_lock, hcap, huse] using hc)]

theorem replay_others_while_held (me : Nat) (others rest : List (Nat × Event))
    (ho : ∀ x ∈ others, x.1 ≠ me)
    (h : replay (some me) (others ++ rest) ≠ none) :
    (∀ x ∈ others, ∀ d, x.2 ≠ Event.dispatch d) ∧ replay (some me) rest ≠ none := by
  induction others with
  | nil => exact ⟨by simp, by simpa using h⟩
  | cons x xs ih =>
    obtain ⟨n, e⟩ := x
    have hn : n ≠ me := ho (n, e) (by simp)
    have hn2 : ¬ (some me = some n) := by
      intro hc
      exact hn (Option.some.inj hc).symm
    have hxs : ∀ y ∈ xs, y.1 ≠ me := fun y hy => ho y (by simp [hy])
    cases e with
    | staging_create k =>
      simp only [List.cons_append, replay] at h
      obtain ⟨h1, h2⟩ := ih hxs h
      refine ⟨?_, h2⟩
      intro y hy d
      rcases List.mem_cons.1 hy with rfl | hy
      · simp
      · exact h1 y hy d
    | staging_destroy k =>
      simp only [List.cons_append, replay] at h
      obtain ⟨h1, h2⟩ := ih hxs h
      refine ⟨?_, h2⟩
      intro y hy d
      rcases List.mem_cons.1 hy with rfl | hy
      · simp
      · exact h1 y hy d
    | lock => simp [replay] at h
    | unlock => simp [replay, hn2] at h
    | dispatch d => simp [replay, hn2] at h

theorem replay_after_dispatch (me : Nat) (d : Dispatch) (pre rest : List (Nat × Event))
    (holder : Option Nat)
    (h : replay holder (pre ++ (me, Event.dispatch d) :: rest) ≠ none) :
    replay (some me) rest ≠ none := by
  induction pre generalizing holder with
  | nil =>
    simp only [List.nil_append, replay] at h
    split_ifs at h with hh
    · subst hh
      exact h
    · exact absurd rfl h
  | cons x xs ih =>
    obtain ⟨n, e⟩ := x
    cases e with
    | staging_create k =>
      simp only [List.cons_append, replay] at h
      exact ih _ h
    | staging_destroy k =>
      simp only [List.cons_append, replay] at h
      exact ih _ h
    | lock =>
      simp only [List.cons_append, replay] at h
      split_ifs at h with hh
      · exact ih _ h
      · exact absurd rfl h
    | unlock =>
      simp only [List.cons_append, replay] at h
      split_ifs at h with hh
      · exact ih _ h
      · exact absurd rfl h
    | dispatch d2 =>
      simp only [List.cons_append, replay] at h
      split_ifs at h with hh
      · exact ih _ h
      · exact absurd rfl h

theorem no_foreign_dispatch_between (me : Nat) (d1 d2 : Dispatch)
    (pre between post : List (Nat × Event))
    (ho : ∀ x ∈ between, x.1 ≠ me)
    (h : replay none (pre ++ (me, Event.dispatch d1) :: between ++
      (me, Event.dispatch d2) :: post) ≠ none) :
    ∀ x ∈ between, ∀ d, x.2 ≠ Event.dispatch d := by
  have h1 : replay (some me) (between ++ (me, Event.dispatch d2) :: post) ≠ none := by
    apply replay_after_dispatch me d1 pre _ none
    simpa [List.append_assoc] using h
  exact (replay_others_while_held me between _ ho h1).1

/-! ## Staging buffer -/

/-- C1. When the destination resolves to a tensor of shape `S` and element
type `T` and the source reference resolves to none, `create_staging_buffer`
returns a buffer of exactly `numel(S) * element_size(T)` bytes, all zero
(provided that byte count is representable as `size_t` and can be
allocated). -/
theorem create_staging_buffer_zero_fill (api : Api) (node : PrepackNode) (graph : ComputeGraph)
    (packed : vTensor)
    (hdst : graph.get_val node.packed_ = .ok (.Tensor packed))
    (hsrc : graph.get_val node.tref_ = .ok .None)
    (hfit : packed.sizes.prod * api.element_size packed.dtype < 2 ^ 64)
    (hmem : packed.sizes.prod * api.element_size packed.dtype ≤ graph.context.host_bytes_free) :
    ∃ staging, (create_staging_buffer api node graph).1 = .ok staging ∧
      staging.data.length = packed.sizes.prod * api.element_size packed.dtype ∧
      ∀ b ∈ staging.data, b = 0 := by
  obtain ⟨h1, h2⟩ := numel_fits packed.sizes (api.element_size packed.dtype) hfit
  have hw : write_bytes
      ((List.range (packed.sizes.prod * api.element_size packed.dtype)).map graph.context.uninit)
      (List.replicate (packed.sizes.prod * api.element_size packed.dtype) 0)
      = List.replicate (packed.sizes.prod * api.element_size packed.dtype) 0 :=
    write_bytes_full _ _ (by simp)
  refine ⟨{ dtype := packed.dtype, numel := size_t (multiply_integers packed.sizes),
            data := List.replicate (packed.sizes.prod * api.element_size packed.dtype) 0 }, ?_, ?_, ?_⟩
  · simp [create_staging_buffer, hdst, hsrc, Except.bind, Value.toTensor, Value.isNone,
      StorageBuffer.create, set_staging_zeros, h1, size_t_of_lt _ hfit, hmem, hw]
  · simp
  · intro b hb
    exact List.eq_of_mem_replicate hb

/-- Scenario A of C1: shape `[4,4]`, 4-byte float, no source gives 64 zero
bytes. -/
theorem create_staging_buffer_zero_fill_witness :
    scenario_a_graph.get_val scenario_a_node.tref_ = .ok .None ∧
    ∃ staging, (create_staging_buffer example_api scenario_a_node scenario_a_graph).1
        = .ok staging ∧
      staging.data.length = 64 ∧ ∀ b ∈ staging.data, b = 0 :=
  ⟨rfl, create_staging_buffer_zero_fill example_api scenario_a_node scenario_a_graph
    { sizes := [4, 4], dtype := .Float, layout := .UNDEFINED } rfl rfl (by decide) (by decide)⟩

/-- C2. When the source reference resolves to a descriptor with shape `S'`,
element type `T'` and byte buffer `B` of `numel(S') * element_size(T')` bytes,
`create_staging_buffer` returns a buffer of exactly that many bytes, equal to
`B` byte for byte and typed `T'`, whatever the shape and element type of the
destination tensor (provided the byte count is representable as `size_t` and
can be allocated). -/
theorem create_staging_buffer_copies_source (api : Api) (node : PrepackNode)
    (graph : ComputeGraph) (packed : vTensor) (tref : TensorRef)
    (hdst : graph.get_val node.packed_ = .ok (.Tensor packed))
    (hsrc : graph.get_val node.tref_ = .ok (.TensorRef tref))
    (hB : tref.data.length = tref.sizes.prod * api.element_size tref.dtype)
    (hfit : tref.sizes.prod * api.element_size tref.dtype < 2 ^ 64)
    (hmem : tref.sizes.prod * api.element_size tref.dtype ≤ graph.context.host_bytes_free) :
    ∃ staging, (create_staging_buffer api node graph).1 = .ok staging ∧
      staging.data.length = tref.sizes.prod * api.element_size tref.dtype ∧
      staging.data = tref.data ∧
      staging.dtype = tref.dtype := by
  obtain ⟨h1, _⟩ := numel_fits tref.sizes (api.element_size tref.dtype) hfit
  have ht : tref.data.take (tref.sizes.prod * api.element_size tref.dtype) = tref.data := by
    rw [← hB]; simp
  have hw : write_bytes
      ((List.range (tref.sizes.prod * api.element_size tref.dtype)).map graph.context.uninit)
      tref.data = tref.data :=
    write_bytes_full _ _ (by simp [hB])
  refine ⟨{ dtype := tref.dtype, numel := size_t (multiply_integers tref.sizes),
            data := tref.data }, ?_, hB, rfl, rfl⟩
  simp [create_staging_buffer, hdst, hsrc, Except.bind, Value.toTensor, Value.isNone,
    Value.toTensorRef, StorageBuffer.create, copy_ptr_to_staging, h1, size_t_of_lt _ hfit,
    hmem, ht, hw]

/-- Scenario B of C2: a source of shape `[2,3]`, 4-byte float, gives 24 bytes
equal to the source bytes, although the destination has shape `[5]` and a
2-byte element type. -/
theorem create_staging_buffer_copies_source_witness :
    scenario_b_bytes.length = 24 ∧
    ∃ staging, (create_staging_buffer example_api scenario_a_node scenario_b_graph).1
        = .ok staging ∧
      staging.data.length = 24 ∧ staging.data = scenario_b_bytes ∧
      staging.dtype = ScalarType.Float :=
  ⟨rfl, create_staging_buffer_copies_source example_api scenario_a_node scenario_b_graph
    { sizes := [5], dtype := .Half, layout := .GENERAL }
    { sizes := [2, 3], dtype := .Float, data := scenario_b_bytes }
    rfl rfl rfl (by decide) (by decide)⟩

/-! ## Bindings, dispatches and layout -/

/-- C3. For every parameter-buffer sequence of length `k` (the node is
arbitrary, so `k = 0` is included), the descriptor set of the main dispatch
recorded by a successful `encode` has exactly `k + 2` bindings: slot 0 is the
destination tensor bound with WRITE access, slot 1 is the staging buffer
returned by `create_staging_buffer`, and slot `2 + i` is `params[i]` for every
`i < k`. -/
theorem encode_main_binding_order (api : Api) (node : PrepackNode) (graph : ComputeGraph)
    (h : (encode api node graph).1 = .ok ()) :
    ∃ staging g1 main noop,
      create_staging_buffer api node graph = (.ok staging, g1) ∧
      recorded_dispatches (encode api node graph).2.context.log =
        recorded_dispatches graph.context.log ++ [main, noop] ∧
      main.descriptor_set.bindings.length = node.params_.length + 2 ∧
      main.descriptor_set.bindings[0]? = some (0, .tensor node.packed_ .WRITE) ∧
      main.descriptor_set.bindings[1]? = some (1, .staging staging) ∧
      ∀ i (hi : i < node.params_.length),
        main.descriptor_set.bindings[2 + i]? = some (2 + i, .params node.params_[i]) := by
  obtain ⟨packed, staging, g1, _, hs, _, _, _, hl⟩ := encode_ok_inv api node graph h
  refine ⟨staging, g1, main_dispatch node packed staging, noop_dispatch node, hs, ?_, ?_, ?_, ?_, ?_⟩
  · rw [hl, recorded_dispatches_append]
    rfl
  · simp [main_dispatch, param_bindings_length]
  · simp [main_dispatch]
  · simp [main_dispatch]
  · intro i hi
    have := param_bindings_get node.params_ 2 i hi
    simp only [main_dispatch]
    rw [Nat.add_comm 2 i]
    simpa [Nat.add_comm] using this

/-- C3 on a node with two parameter buffers. -/
theorem encode_main_binding_order_witness :
    (encode example_api scenario_params_node scenario_a_registered).1 = .ok () ∧
    ∃ staging g1 main noop,
      create_staging_buffer example_api scenario_params_node scenario_a_registered
        = (.ok staging, g1) ∧
      recorded_dispatches
          (encode example_api scenario_params_node scenario_a_registered).2.context.log =
        recorded_dispatches scenario_a_registered.context.log ++ [main, noop] ∧
      main.descriptor_set.bindings.length = scenario_params_node.params_.length + 2 ∧
      main.descriptor_set.bindings[0]? = some (0, .tensor scenario_params_node.packed_ .WRITE) ∧
      main.descriptor_set.bindings[1]? = some (1, .staging staging) ∧
      ∀ i (hi : i < scenario_params_node.params_.length),
        main.descriptor_set.bindings[2 + i]? =
          some (2 + i, .params scenario_params_node.params_[i]) :=
  ⟨rfl, encode_main_binding_order example_api scenario_params_node scenario_a_registered rfl⟩

/-- C4. Every successful call of `encode` records exactly two dispatches, in
this order: the main kernel (descriptor set obtained for `shader_` and the
configured local extent, dispatched at the configured global extent, its
barrier holding the WRITE access of the destination), then the no-op kernel,
whose descriptor set is obtained for local extent (1,1,1) and has the single
binding slot 0 = destination tensor with READ access, dispatched at global
extent (1,1,1), with a barrier of its own that holds only the READ access. -/
theorem encode_records_two_dispatches (api : Api) (node : PrepackNode) (graph : ComputeGraph)
    (h : (encode api node graph).1 = .ok ()) :
    ∃ packed main noop,
      graph.get_val node.packed_ = .ok (.Tensor packed) ∧
      recorded_dispatches (encode api node graph).2.context.log =
        recorded_dispatches graph.context.log ++ [main, noop] ∧
      main.shader = node.shader_ ∧
      main.descriptor_set.shader = node.shader_ ∧
      main.descriptor_set.local_workgroup_size = node.local_workgroup_size_ ∧
      main.global_workgroup_size = node.global_workgroup_size_ ∧
      main.pipeline_barrier.entries =
        [{ access := .WRITE, old_layout := packed.layout, new_layout := .GENERAL }] ∧
      noop.shader = node.noop_shader_ ∧
      noop.descriptor_set =
        { shader := node.noop_shader_, local_workgroup_size := ⟨1, 1, 1⟩,
          bindings := [(0, .tensor node.packed_ .READ)] } ∧
      noop.global_workgroup_size = ⟨1, 1, 1⟩ ∧
      noop.pipeline_barrier.entries =
        [{ access := .READ, old_layout := .GENERAL, new_layout := .READ_ONLY_OPTIMAL }] := by
  obtain ⟨packed, staging, g1, hp, _, _, _, _, hl⟩ := encode_ok_inv api node graph h
  refine ⟨packed, main_dispatch node packed staging, noop_dispatch node, hp, ?_,
    rfl, rfl, rfl, rfl, rfl, rfl, rfl, rfl, rfl⟩
  rw [hl, recorded_dispatches_append]
  rfl

/-- C4 on scenario A: two dispatches are recorded. -/
theorem encode_records_two_dispatches_witness :
    (encode example_api scenario_a_node scenario_a_registered).1 = .ok () ∧
    ∃ packed main noop,
      scenario_a_registered.get_val scenario_a_node.packed_ = .ok (.Tensor packed) ∧
      recorded_dispatches (encode example_api scenario_a_node scenario_a_registered).2.context.log =
        recorded_dispatches scenario_a_registered.context.log ++ [main, noop] ∧
      main.shader = scenario_a_node.shader_ ∧
      main.descriptor_set.shader = scenario_a_node.shader_ ∧
      main.descriptor_set.local_workgroup_size = scenario_a_node.local_workgroup_size_ ∧
      main.global_workgroup_size = scenario_a_node.global_workgroup_size_ ∧
      main.pipeline_barrier.entries =
        [{ access := .WRITE, old_layout := packed.layout, new_layout := .GENERAL }] ∧
      noop.shader = scenario_a_node.noop_shader_ ∧
      noop.descriptor_set =
        { shader := scenario_a_node.noop_shader_, local_workgroup_size := ⟨1, 1, 1⟩,
          bindings := [(0, .tensor scenario_a_node.packed_ .READ)] } ∧
      noop.global_workgroup_size = ⟨1, 1, 1⟩ ∧
      noop.pipeline_barrier.entries =
        [{ access := .READ, old_layout := .GENERAL, new_layout := .READ_ONLY_OPTIMAL }] :=
  ⟨rfl, encode_records_two_dispatches example_api scenario_a_node scenario_a_registered rfl⟩

/-- C5. Whatever the layout state of the destination tensor before the call,
after a successful `encode` the destination entry of the value table is the
same tensor in the read-optimized state, and the last dispatch recorded is the
one whose only binding is the destination tensor with READ access. -/
theorem encode_leaves_read_optimized (api : Api) (node : PrepackNode) (graph : ComputeGraph)
    (h : (encode api node graph).1 = .ok ()) :
    ∃ packed,
      graph.get_val node.packed_ = .ok (.Tensor packed) ∧
      (encode api node graph).2.get_val node.packed_ =
        .ok (.Tensor { packed with layout := .READ_ONLY_OPTIMAL }) ∧
      ∃ earlier last,
        recorded_dispatches (encode api node graph).2.context.log = earlier ++ [last] ∧
        last.descriptor_set.bindings = [(0, .tensor node.packed_ .READ)] := by
  obtain ⟨packed, staging, g1, hp, _, _, hv, _, hl⟩ := encode_ok_inv api node graph h
  refine ⟨packed, hp, get_val_set_set graph _ _ _ _ _ hp hv, ?_⟩
  refine ⟨recorded_dispatches graph.context.log ++ [main_dispatch node packed staging],
    noop_dispatch node, ?_, rfl⟩
  rw [hl, recorded_dispatches_append]
  simp [recorded_dispatches]

/-- C5 on a destination that starts in the general-access state. -/
theorem encode_leaves_read_optimized_witness :
    scenario_general_registered.get_val scenario_a_node.packed_ =
      .ok (.Tensor { sizes := [4, 4], dtype := .Float, layout := .GENERAL }) ∧
    ∃ packed,
      scenario_general_registered.get_val scenario_a_node.packed_ = .ok (.Tensor packed) ∧
      (encode example_api scenario_a_node scenario_general_registered).2.get_val
          scenario_a_node.packed_ =
        .ok (.Tensor { packed with layout := .READ_ONLY_OPTIMAL }) ∧
      ∃ earlier last,
        recorded_dispatches
            (encode example_api scenario_a_node scenario_general_registered).2.context.log =
          earlier ++ [last] ∧
        last.descriptor_set.bindings = [(0, .tensor scenario_a_node.packed_ .READ)] :=
  ⟨rfl, encode_leaves_read_optimized example_api scenario_a_node scenario_general_registered rfl⟩

/-! ## Errors -/

/-- C6. If the destination value reference does not resolve to a tensor value,
`encode` fails with InvalidReferenceError and leaves the graph exactly as it
was: no staging buffer was built, the lock was not acquired, and the log of
context operations (hence the list of recorded dispatches) is unchanged. -/
theorem encode_invalid_destination (api : Api) (node : PrepackNode) (graph : ComputeGraph)
    (h : ∀ t, graph.get_val node.packed_ ≠ .ok (.Tensor t)) :
    encode api node graph = (.error .InvalidReferenceError, graph) ∧
      (encode api node graph).2.context.log = graph.context.log := by
  have key : encode api node graph = (.error .InvalidReferenceError, graph) := by
    cases hp : (graph.get_val node.packed_).bind Value.toTensor with
    | error e =>
      have he := toTensor_error _ _ _ hp
      subst he
      unfold encode
      simp [hp]
    | ok packed => exact absurd ((toTensor_ok_iff _ _ _).1 hp) (h packed)
  exact ⟨key, by rw [key]⟩

/-- C6 on a destination reference that points at a `None` entry. -/
theorem encode_invalid_destination_witness :
    scenario_a_graph.get_val scenario_bad_node.packed_ = .ok .None ∧
    (encode example_api scenario_bad_node scenario_a_graph
        = (.error .InvalidReferenceError, scenario_a_graph) ∧
      (encode example_api scenario_bad_node scenario_a_graph).2.context.log
        = scenario_a_graph.context.log) :=
  ⟨rfl, encode_invalid_destination example_api scenario_bad_node scenario_a_graph
    (by intro t h; simp [ComputeGraph.get_val, scenario_a_graph, scenario_bad_node] at h)⟩

/-- C7. If the destination resolves to a tensor and no compiled kernel exists
for the name made of `no_op`, then the rank suffix, then the dtype suffix, the
constructor fails with ShaderResolutionError and leaves the graph as it was
(nothing registered, nothing dispatched); and `encode` never fails with
ShaderResolutionError. -/
theorem constructor_fails_without_noop_kernel (api : Api) (graph : ComputeGraph)
    (shader : ShaderInfo) (global_workgroup_size local_workgroup_size : uvec3)
    (tref packed : ValueRef) (params : List UniformParamsBuffer) (t : vTensor)
    (hp : graph.get_val packed = .ok (.Tensor t))
    (hk : api.shader_registry ("no_op" ++ api.ndim_suffix t ++ api.dtype_suffix t) = none) :
    PrepackNode.PrepackNode api graph shader global_workgroup_size local_workgroup_size
        tref packed params = (.error .ShaderResolutionError, graph) ∧
      ∀ node g, (encode api node g).1 ≠ .error .ShaderResolutionError := by
  refine ⟨?_, fun node g => encode_error_kinds api node g⟩
  simp [PrepackNode.PrepackNode, get_noop_shader, hp, Except.bind, Value.toTensor,
    VK_KERNEL_FROM_STR, hk]

/-- Scenario C of C7: an empty shader registry. -/
theorem constructor_fails_without_noop_kernel_witness :
    example_api_without_kernels.shader_registry "no_op_3d_float" = none ∧
    (PrepackNode.PrepackNode example_api_without_kernels scenario_a_graph example_main_shader
        ⟨4, 4, 1⟩ ⟨4, 4, 1⟩ 0 1 [] = (.error .ShaderResolutionError, scenario_a_graph) ∧
      ∀ node g, (encode example_api_without_kernels node g).1 ≠ .error .ShaderResolutionError) :=
  ⟨rfl, constructor_fails_without_noop_kernel example_api_without_kernels scenario_a_graph
    example_main_shader ⟨4, 4, 1⟩ ⟨4, 4, 1⟩ 0 1 []
    { sizes := [4, 4], dtype := .Float, layout := .UNDEFINED } rfl rfl⟩

/-! ## Registration -/

/-- C8. A successful construction reports descriptor usage to the graph by
exactly two calls of `update_descriptor_counts`, one for the main shader and
one for the no-op shader obtained from `get_noop_shader`, in that order and
both with `execute = false`; `encode` of the node never changes the
registrations of the graph it runs on. -/
theorem constructor_registers_both_kernels (api : Api) (graph g1 : ComputeGraph)
    (shader : ShaderInfo) (global_workgroup_size local_workgroup_size : uvec3)
    (tref packed : ValueRef) (params : List UniformParamsBuffer) (node : PrepackNode)
    (h : PrepackNode.PrepackNode api graph shader global_workgroup_size local_workgroup_size
        tref packed params = (.ok node, g1)) :
    node.shader_ = shader ∧
      get_noop_shader api graph packed = .ok node.noop_shader_ ∧
      g1.descriptor_counts =
        graph.descriptor_counts ++ [(node.shader_, false), (node.noop_shader_, false)] ∧
      ∀ g, (encode api node g).2.descriptor_counts = g.descriptor_counts := by
  unfold PrepackNode.PrepackNode at h
  split at h
  · simp at h
  · rename_i noop hn
    simp only [Prod.mk.injEq, Except.ok.injEq] at h
    obtain ⟨rfl, rfl⟩ := h
    refine ⟨rfl, hn, ?_, fun g => encode_descriptor_counts api _ g⟩
    simp [ComputeGraph.update_descriptor_counts]

/-- C8 on scenario A. -/
theorem constructor_registers_both_kernels_witness :
    scenario_a_registered.descriptor_counts =
      [(example_main_shader, false), (example_noop_shader, false)] ∧
    (scenario_a_node.shader_ = example_main_shader ∧
      get_noop_shader example_api scenario_a_graph 1 = .ok scenario_a_node.noop_shader_ ∧
      scenario_a_registered.descriptor_counts =
        scenario_a_graph.descriptor_counts ++
          [(scenario_a_node.shader_, false), (scenario_a_node.noop_shader_, false)] ∧
      ∀ g, (encode example_api scenario_a_node g).2.descriptor_counts = g.descriptor_counts) :=
  ⟨rfl, constructor_registers_both_kernels example_api scenario_a_graph scenario_a_registered
    example_main_shader ⟨4, 4, 1⟩ ⟨4, 4, 1⟩ 0 1 [] scenario_a_node rfl⟩

/-! ## Critical section -/

/-- C10. In every run of `encode` the operations it adds to the log of the
context are either none, or: creation of the staging buffer, acquisition of the
lock, at most two dispatches, release of the lock, destruction of the staging
buffer, in this order.  In a successful run the dispatches are exactly two and
adjacent, and in every schedule that respects the lock no dispatch of another
node lies between them. -/
theorem encode_lock_brackets_dispatches (api : Api) (node : PrepackNode) (graph : ComputeGraph) :
    (∃ suffix, (encode api node graph).2.context.log = graph.context.log ++ suffix ∧
      (suffix = [] ∨ ∃ (n : Nat) (ds : List Dispatch), ds.length ≤ 2 ∧
        suffix = [Event.staging_create n, Event.lock] ++ ds.map Event.dispatch ++
          [Event.unlock, Event.staging_destroy n])) ∧
    ((encode api node graph).1 = .ok () →
      ∃ n d1 d2,
        (encode api node graph).2.context.log = graph.context.log ++
          [Event.staging_create n, Event.lock, Event.dispatch d1, Event.dispatch d2,
           Event.unlock, Event.staging_destroy n] ∧
        ∀ (me : Nat) (pre between post : List (Nat × Event)),
          (∀ x ∈ between, x.1 ≠ me) →
          replay none (pre ++ (me, Event.dispatch d1) :: between ++
            (me, Event.dispatch d2) :: post) ≠ none →
          ∀ x ∈ between, ∀ d, x.2 ≠ Event.dispatch d) := by
  constructor
  · rcases encode_cases api node graph with h | h | ⟨packed, staging, _, _, _, _, h | h | h⟩
    · exact ⟨[], by simp [h], Or.inl rfl⟩
    · exact ⟨[], by simp [h], Or.inl rfl⟩
    · exact ⟨_, h.2.2.2, Or.inr ⟨staging.data.length, [], by simp, rfl⟩⟩
    · exact ⟨_, h.2.2.2.2, Or.inr ⟨staging.data.length, [main_dispatch node packed staging],
        by simp, rfl⟩⟩
    · exact ⟨_, h.2.2.2, Or.inr ⟨staging.data.length,
        [main_dispatch node packed staging, noop_dispatch node], by simp, rfl⟩⟩
  · intro h
    obtain ⟨packed, staging, _, _, _, _, _, _, hl⟩ := encode_ok_inv api node graph h
    exact ⟨staging.data.length, main_dispatch node packed staging, noop_dispatch node, hl,
      fun me pre between post ho hr =>
        no_foreign_dispatch_between me _ _ pre between post ho hr⟩

/-- C10 on scenario A, with a schedule in which another node builds its staging
buffer between the two dispatches. -/
theorem encode_lock_brackets_dispatches_witness :
    (encode example_api scenario_a_node scenario_a_registered).1 = .ok () ∧
    ∃ n d1 d2,
      (encode example_api scenario_a_node scenario_a_registered).2.context.log =
        scenario_a_registered.context.log ++
          [Event.staging_create n, Event.lock, Event.dispatch d1, Event.dispatch d2,
           Event.unlock, Event.staging_destroy n] ∧
      replay none
        [(0, Event.staging_create n), (0, Event.lock), (0, Event.dispatch d1),
         (1, Event.staging_create 8), (0, Event.dispatch d2), (0, Event.unlock),
         (0, Event.staging_destroy n)] ≠ none ∧
      ∀ x ∈ [((1 : Nat), Event.staging_create 8)], ∀ d, x.2 ≠ Event.dispatch d := by
  obtain ⟨n, d1, d2, hl, hs⟩ :=
    (encode_lock_brackets_dispatches example_api scenario_a_node scenario_a_registered).2 rfl
  refine ⟨rfl, n, d1, d2, hl, by simp [replay], ?_⟩
  exact hs 0 [(0, Event.staging_create n), (0, Event.lock)] [(1, Event.staging_create 8)]
    [(0, Event.unlock), (0, Event.staging_destroy n)] (by simp) (by simp [replay])

end vkcompute
